import Mathlib

/-!
Verification of the chatlibre translation proxy (src/chatlibre.py) against its
specification.  The Python source is shallowly embedded: JSON data is the
inductive `JVal`, the pydantic models become structures with explicit
validation functions, the OpenAI completion call is abstracted by an
`ApiOutcome` oracle, and the aiohttp handler `translate` becomes a total
function from the request body and the oracle to the HTTP-level outcome.
-/

set_option maxRecDepth 4000

namespace Chatlibre

/-- JSON values (Python dict / list / str / int / bool / None). -/
inductive JVal where
  | jnull
  | jbool (b : Bool)
  | jint (n : Int)
  | jstr (s : String)
  | jarr (elems : List JVal)
  | jobj (fields : List (String × JVal))

/-- Hexadecimal digit character (lowercase), as Python formats \uXXXX escapes. -/
def hexDigit (n : Nat) : Char :=
  if n < 10 then Char.ofNat (48 + n) else Char.ofNat (87 + n)

/-- One character rendered as Python json.dumps(..., ensure_ascii=False) renders it:
only the quote, the backslash and control characters are escaped; everything else,
including non-ASCII, is emitted verbatim. -/
def escapeChar (c : Char) : String :=
  if c = '"' then "\\\""
  else if c = '\\' then "\\\\"
  else if c = '\n' then "\\n"
  else if c = '\r' then "\\r"
  else if c = '\t' then "\\t"
  else if c = Char.ofNat 8 then "\\b"
  else if c = Char.ofNat 12 then "\\f"
  else if c.toNat < 32 then
    "\\u00" ++ String.singleton (hexDigit (c.toNat / 16)) ++
      String.singleton (hexDigit (c.toNat % 16))
  else String.singleton c

/-- A JSON string literal as Python json.dumps(..., ensure_ascii=False) writes it. -/
def pyJsonQuote (s : String) : String :=
  "\"" ++ String.join (s.data.map escapeChar) ++ "\""

mutual
/-- Python json.dumps(v, ensure_ascii=False) with the default separators
(", " between items, ": " after keys). -/
def jvalDump : JVal → String
  | .jnull => "null"
  | .jbool true => "true"
  | .jbool false => "false"
  | .jint n => toString n
  | .jstr s => pyJsonQuote s
  | .jarr elems => "[" ++ String.intercalate ", " (jvalDumpList elems) ++ "]"
  | .jobj fields => "\x7b" ++ String.intercalate ", " (jvalDumpFields fields) ++ "\x7d"

def jvalDumpList : List JVal → List String
  | [] => []
  | v :: vs => jvalDump v :: jvalDumpList vs

def jvalDumpFields : List (String × JVal) → List String
  | [] => []
  | (k, v) :: fs => (pyJsonQuote k ++ ": " ++ jvalDump v) :: jvalDumpFields fs
end

/-- pydantic model DetectedLanguage (chatlibre.py lines 31-33).  `confidence` is a
PositiveInt; positivity is enforced by `validateDetectedLanguage` below. -/
structure DetectedLanguage where
  language : String
  confidence : Nat
deriving DecidableEq

/-- pydantic model Translation (chatlibre.py lines 36-43); its ConfigDict sets
camelCase aliases (to_camel) with populate_by_name=True. -/
structure Translation where
  detected_language : DetectedLanguage
  translated_text : List String
deriving DecidableEq

/-- Lookup of a key in a JSON object's field list (Python dict indexing). -/
def jlookup (fields : List (String × JVal)) (key : String) : Option JVal :=
  (fields.find? (fun p => p.1 == key)).map (·.2)

/-- pydantic field lookup with populate_by_name=True: the camelCase alias is
accepted, and so is the plain field name. -/
def fieldLookup (fields : List (String × JVal)) (aliasKey fieldName : String) : Option JVal :=
  match jlookup fields aliasKey with
  | some v => some v
  | none => jlookup fields fieldName

def asStr : JVal → Option String
  | .jstr s => some s
  | _ => none

/-- Validation of a PositiveInt field: an integer strictly greater than zero.
(The lax-mode numeric-string coercions of pydantic are not modelled; model
replies are JSON, where the field is a number.) -/
def asPosInt : JVal → Option Nat
  | .jint n => if 0 < n then some n.toNat else none
  | _ => none

/-- Each element of a list validated as a string. -/
def strListOf : List JVal → Option (List String)
  | [] => some []
  | v :: vs =>
    match asStr v, strListOf vs with
    | some s, some l => some (s :: l)
    | _, _ => none

def asStrList : JVal → Option (List String)
  | .jarr elems => strListOf elems
  | _ => none

/-- pydantic validation of DetectedLanguage: `language` must be a string and
`confidence` a positive integer. -/
def validateDetectedLanguage (v : JVal) : Option DetectedLanguage :=
  match v with
  | .jobj fields =>
    match jlookup fields "language" >>= asStr, jlookup fields "confidence" >>= asPosInt with
    | some lang, some conf => some ⟨lang, conf⟩
    | _, _ => none
  | _ => none

/-- pydantic validation of Translation (Translation.model_validate /
model_validate_json after JSON parsing): a valid DetectedLanguage under
`detectedLanguage` (or `detected_language`) and a list of strings under
`translatedText` (or `translated_text`).  Note: nothing relates the length of
`translated_text` to the length of the input batch. -/
def validateTranslation (v : JVal) : Option Translation :=
  match v with
  | .jobj fields =>
    match fieldLookup fields "detectedLanguage" "detected_language" >>= validateDetectedLanguage,
          fieldLookup fields "translatedText" "translated_text" >>= asStrList with
    | some dl, some tt => some ⟨dl, tt⟩
    | _, _ => none
  | _ => none

/-- Translation.model_dump(by_alias=True): a dict with the camelCase keys. -/
def translationDump (t : Translation) : JVal :=
  .jobj [("detectedLanguage",
           .jobj [("language", .jstr t.detected_language.language),
                  ("confidence", .jint (t.detected_language.confidence : Int))]),
         ("translatedText", .jarr (t.translated_text.map .jstr))]

/-- Translation.model_dump_json(indent=2, by_alias=True): the pretty-printed
JSON rendering pydantic produces with a two-space indent. -/
def translationDumpJsonIndent2 (t : Translation) : String :=
  "\x7b\n  \"detectedLanguage\": \x7b\n    \"language\": " ++
    pyJsonQuote t.detected_language.language ++
  ",\n    \"confidence\": " ++ toString t.detected_language.confidence ++
  "\n  \x7d,\n  \"translatedText\": " ++
  (match t.translated_text with
   | [] => "[]"
   | xs => "[\n" ++ String.intercalate ",\n" (xs.map (fun s => "    " ++ pyJsonQuote s)) ++
           "\n  ]") ++
  "\n\x7d"

/-- Python str.replace scanning, left to right, on character lists.  The second
argument counts characters of an already-matched occurrence that remain to be
skipped (the replacement itself is never rescanned, as in Python).  The
empty-pattern special case of Python never occurs in this program. -/
def replaceGo (pat rep : List Char) : List Char → Nat → List Char
  | [], _ => []
  | _ :: cs, k + 1 => replaceGo pat rep cs k
  | c :: cs, 0 =>
    if pat.isPrefixOf (c :: cs) && !pat.isEmpty then
      rep ++ replaceGo pat rep cs (pat.length - 1)
    else
      c :: replaceGo pat rep cs 0

/-- Python str.replace(pat, rep), replacing every occurrence. -/
def pyStrReplace (s pat rep : String) : String :=
  ⟨replaceGo pat.data rep.data s.data 0⟩

def TAG_TARGET : String := "<TARGET>"

def TAG_EXAMPLE : String := "<OUTPUT_EXAMPLE>"

/-- The PROMPT template (chatlibre.py lines 23-28), with the f-string
line continuations resolved. -/
def PROMPT : String :=
  "You are a translation service for fediverse posts. Given JSON array of text, detect its language and translate each text to <TARGET>. Keep HTML tags, emoji codes (e.g. `:smile:`), and emoticons intact. Provide the results in the following JSON format:\n\n<OUTPUT_EXAMPLE>"

/-- The part of PROMPT strictly before the TAG_TARGET placeholder. -/
def promptHead : String :=
  "You are a translation service for fediverse posts. Given JSON array of text, detect its language and translate each text to "

/-- The part of PROMPT strictly between the TAG_TARGET and TAG_EXAMPLE placeholders. -/
def promptMid : String :=
  ". Keep HTML tags, emoji codes (e.g. `:smile:`), and emoticons intact. Provide the results in the following JSON format:\n\n"

/-- The worked example embedded into every prompt (chatlibre.py lines 86-92). -/
def EXAMPLE : Translation :=
  { detected_language := { language := "zh", confidence := 87 }
    translated_text := ["<p>Hello</p>", "Bye"] }

/-- dict.get of the language directory (languages_code_name()); the directory is
loaded from a static CSV outside the handler and is passed explicitly here. -/
def dirGet (dir : List (String × String)) (code : String) : Option String :=
  (dir.find? (fun p => p.1 == code)).map (·.2)

/-- prompt(target_lang_code) (chatlibre.py lines 95-98): resolve the display
name (falling back to the raw code), then substitute the example and the
language name into PROMPT. -/
def prompt (dir : List (String × String)) (target_lang_code : String) : String :=
  let lang := (dirGet dir target_lang_code).getD target_lang_code
  let exampleText := translationDumpJsonIndent2 EXAMPLE
  pyStrReplace (pyStrReplace PROMPT TAG_EXAMPLE exampleText) TAG_TARGET lang

/-- The response_format argument of the completion call: "text", "json_object",
or the Translation schema class (chatlibre.py lines 56-61 and 157-162). -/
inductive RespFormat where
  | text
  | jsonObject
  | schema
deriving DecidableEq

def RESPONSE_FORMAT_TEXT : RespFormat := .text

def RESPONSE_FORMAT_JSON : RespFormat := .jsonObject

structure ChatMessage where
  role : String
  content : String
deriving DecidableEq

/-- The request actually sent to the upstream completion endpoint. -/
structure ChatCall where
  model : String
  response_format : RespFormat
  messages : List ChatMessage
deriving DecidableEq

/-- Outcome of one upstream completion call, abstracting the OpenAI client:
either a completion envelope (with the SDK-parsed object when the schema
format was used and parsing succeeded, the raw message content parsed as JSON
when it is syntactically valid JSON, and the usage counters), or one of the
exceptions the client raises: openai.RateLimitError, another openai.OpenAIError,
or an IOError. -/
inductive ApiOutcome where
  | success (parsed : Option Translation) (content : Option JVal)
      (prompt_tokens completion_tokens : Nat)
  | rateLimitError (msg : String)
  | apiError (msg : String)
  | ioError (msg : String)

/-- The Python exceptions that can escape chat(), tagged as translate()'s
except clauses distinguish them.  `validationError` covers pydantic
ValidationError (including unparseable JSON given to model_validate_json). -/
inductive ChatError where
  | rateLimitError (msg : String)
  | openAIError (msg : String)
  | ioError (msg : String)
  | validationError (msg : String)
  | keyError (key : String)
  | indexError (msg : String)
  | typeError (msg : String)
deriving DecidableEq

structure LogEntry where
  level : String
  msg : String
deriving DecidableEq

structure ChatResult where
  call : ChatCall
  logs : List LogEntry
  result : Except ChatError JVal

/-- Rendering of the ChatCompletion object passed to logging.debug.  The exact
library repr is abstracted, but, faithfully to it, the message payload and the
usage counters all appear in this debug line. -/
def completionRepr (parsed : Option Translation) (content : Option JVal)
    (prompt_tokens completion_tokens : Nat) : String :=
  "ChatCompletion(parsed=" ++
  (match parsed with
   | some t => jvalDump (translationDump t)
   | none => "None") ++
  ", content=" ++
  (match content with
   | some v => pyJsonQuote (jvalDump v)
   | none => "None") ++
  ", usage=CompletionUsage(prompt_tokens=" ++ toString prompt_tokens ++
  ", completion_tokens=" ++ toString completion_tokens ++ "))"

def jvalGet (v : JVal) (key : String) : Option JVal :=
  match v with
  | .jobj fields => jlookup fields key
  | _ => none

/-- Python dict item assignment d[key] = x (an existing key keeps its position;
a new key is appended). -/
def jvalSet (v : JVal) (key : String) (x : JVal) : JVal :=
  match v with
  | .jobj fields =>
    if (fields.find? (fun p => p.1 == key)).isSome then
      .jobj (fields.map (fun p => if p.1 == key then (key, x) else p))
    else
      .jobj (fields ++ [(key, x)])
  | w => w

/-- chat(client, text, target_code, model, response_format)
(chatlibre.py lines 116-146).  The remote completion call is abstracted by
`api`; everything else follows the source line by line: wrap a bare string
into a one-element list, build the system/user message pair, log the
completion at debug, take message.parsed or validate message.content, log the
usage line at info, dump the model with camelCase aliases, and, when the
original text was a bare string, rewrite resp["translated_text"] to its first
element — an access which, because the dump used the camelCase aliases, can
only raise KeyError. -/
def chat (dir : List (String × String)) (text : JVal) (target_code model : String)
    (response_format : RespFormat) (api : ApiOutcome) : ChatResult :=
  let text_list : JVal := match text with
    | .jstr s => .jarr [.jstr s]
    | t => t
  let call : ChatCall :=
    { model := model
      response_format := response_format
      messages := [{ role := "system", content := prompt dir target_code },
                   { role := "user", content := jvalDump text_list }] }
  let lr : List LogEntry × Except ChatError JVal :=
    match api with
    | .rateLimitError msg => ([], .error (.rateLimitError msg))
    | .apiError msg => ([], .error (.openAIError msg))
    | .ioError msg => ([], .error (.ioError msg))
    | .success parsed content prompt_tokens completion_tokens =>
      let dbg : LogEntry :=
        ⟨"debug", completionRepr parsed content prompt_tokens completion_tokens⟩
      match (match parsed with
             | some t => some t
             | none => content.bind validateTranslation) with
      | none => ([dbg], .error (.validationError "validation error"))
      | some t =>
        let info : LogEntry :=
          ⟨"info", model ++ " " ++ t.detected_language.language ++ "/" ++ target_code ++
            " " ++ toString prompt_tokens ++ "+" ++ toString completion_tokens ++ " tokens"⟩
        let resp := translationDump t
        match text with
        | .jstr _ =>
          match jvalGet resp "translated_text" with
          | none => ([dbg, info], .error (.keyError "translated_text"))
          | some (.jarr []) => ([dbg, info], .error (.indexError "list index out of range"))
          | some (.jarr (x :: _)) => ([dbg, info], .ok (jvalSet resp "translated_text" x))
          | some _ => ([dbg, info], .error (.typeError "value is not indexable"))
        | _ => ([dbg, info], .ok resp)
  { call := call, logs := lr.1, result := lr.2 }

/-- Process configuration (chatlibre.py lines 46-53). -/
structure Args where
  model : String
  disable_json_mode : Bool
  disable_structured_output : Bool
  listen_host : String
  listen_port : Nat
  log_level : String

/-- What the HTTP layer sends back: a json_response, an aiohttp HTTP error the
handler raises deliberately (HTTPTooManyRequests 429 / HTTPServiceUnavailable
503 carrying a short text), or an exception that escapes the handler and which
the framework turns into a generic 500-class internal error. -/
inductive Outcome where
  | jsonResponse (status : Nat) (body : JVal)
  | httpError (status : Nat) (text : String)
  | internalError (exception : String)

structure TranslateResult where
  call : Option ChatCall
  logs : List LogEntry
  outcome : Outcome

/-- The response_format selection of the translate handler
(chatlibre.py lines 157-162). -/
def chooseRespFormat (args : Args) : RespFormat :=
  if args.disable_json_mode then RESPONSE_FORMAT_TEXT
  else if args.disable_structured_output then RESPONSE_FORMAT_JSON
  else .schema

/-- The translate handler (chatlibre.py lines 149-177).  `req` is the decoded
request body; `api` gives the outcome of each successive upstream completion
call the handler would make — the source configures a single model and calls
chat exactly once, so only `api 0` is ever consulted.  Key extraction
(req["q"], req["target"]) happens before the try block: a missing key
escapes as KeyError (internalError).  A non-string target makes prompt()
raise TypeError inside the try block, which no except clause catches. -/
def translate (args : Args) (dir : List (String × String)) (req : JVal)
    (api : Nat → ApiOutcome) : TranslateResult :=
  match req with
  | .jobj fields =>
    match jlookup fields "q" with
    | none => { call := none, logs := [], outcome := .internalError "KeyError: q" }
    | some q =>
      match jlookup fields "target" with
      | none => { call := none, logs := [], outcome := .internalError "KeyError: target" }
      | some (.jstr target_code) =>
        let text : JVal := match q with
          | .jstr s => .jarr [.jstr s]
          | t => t
        let resp_format : RespFormat := chooseRespFormat args
        let r := chat dir text target_code args.model resp_format (api 0)
        let eo : List LogEntry × Outcome :=
          match r.result with
          | .ok resp => ([], .jsonResponse 200 resp)
          | .error (.rateLimitError msg) =>
            ([⟨"warning", "OpenAI rate limit: " ++ msg⟩],
             .httpError 429 "Upstream rate limit")
          | .error (.openAIError msg) =>
            ([⟨"warning", "OpenAI error: " ++ msg⟩],
             .httpError 503 "Upstream API error")
          | .error (.ioError msg) =>
            ([⟨"warning", "OpenAI API I/O error: " ++ msg⟩],
             .httpError 503 "Upstream I/O error")
          | .error (.validationError msg) =>
            ([⟨"warning", "Decoding error: " ++ msg⟩],
             .httpError 503 "Upstream response decoding error")
          | .error (.keyError key) =>
            ([⟨"warning", "Decoding error: " ++ key⟩],
             .httpError 503 "Upstream response decoding error")
          | .error (.indexError msg) => ([], .internalError msg)
          | .error (.typeError msg) => ([], .internalError msg)
        { call := some r.call, logs := r.logs ++ eo.1, outcome := eo.2 }
      | some _ =>
        { call := none, logs := [],
          outcome := .internalError "TypeError: target code is not a string" }
  | _ =>
    { call := none, logs := [],
      outcome := .internalError "TypeError: request body is not a mapping" }

/-- The default command-line configuration (chatlibre.py main()). -/
def exampleArgs : Args :=
  { model := "gpt-4o-mini", disable_json_mode := false, disable_structured_output := false
    listen_host := "::", listen_port := 8080, log_level := "info" }

/-- The default configuration with --disable-json-mode set. -/
def exampleArgsText : Args := { exampleArgs with disable_json_mode := true }

/-- The default configuration with --disable-structured-output set. -/
def exampleArgsJson : Args := { exampleArgs with disable_structured_output := true }

/-- Top-level keys of a JSON object. -/
def jvalKeys (v : JVal) : List String :=
  match v with
  | .jobj fields => fields.map (·.1)
  | _ => []

/-- No position of the list starts an occurrence of pat. -/
def noHit (pat : List Char) : List Char → Bool
  | [] => true
  | c :: cs => !(pat.isPrefixOf (c :: cs)) && noHit pat cs

/-- No position lying inside the first argument starts an occurrence of pat in
(first argument ++ rest). -/
def noHitIn (pat : List Char) : List Char → List Char → Bool
  | [], _ => true
  | c :: cs, rest => !(pat.isPrefixOf (c :: (cs ++ rest))) && noHitIn pat cs rest

/-! ### Helper lemmas -/

theorem isPrefixOf_self_append (l t : List Char) : l.isPrefixOf (l ++ t) = true := by
  induction l with
  | nil => simp [List.isPrefixOf]
  | cons a l ih => simp [List.isPrefixOf, ih]

theorem replaceGo_skip (pat rep : List Char) (c : Char) (cs : List Char)
    (h : pat.isPrefixOf (c :: cs) = false) :
    replaceGo pat rep (c :: cs) 0 = c :: replaceGo pat rep cs 0 := by
  simp [replaceGo, h]

theorem replaceGo_skipN (pat rep ps cs : List Char) :
    replaceGo pat rep (ps ++ cs) ps.length = replaceGo pat rep cs 0 := by
  induction ps with
  | nil => simp
  | cons p ps ih => simpa [replaceGo] using ih

theorem replaceGo_hit (pat rep cs : List Char) (hne : pat.isEmpty = false) :
    replaceGo pat rep (pat ++ cs) 0 = rep ++ replaceGo pat rep cs 0 := by
  match pat, hne with
  | p :: ps, _ =>
    have hpre : (p :: ps).isPrefixOf ((p :: ps) ++ cs) = true :=
      isPrefixOf_self_append _ _
    rw [List.cons_append, replaceGo]
    rw [List.cons_append] at hpre
    simp only [hpre, List.isEmpty_cons, Bool.not_false, Bool.and_self, if_true]
    have : (p :: ps).length - 1 = ps.length := rfl
    rw [this, replaceGo_skipN]

theorem replaceGo_of_noHit (pat rep l : List Char) (h : noHit pat l = true) :
    replaceGo pat rep l 0 = l := by
  induction l with
  | nil => rfl
  | cons c cs ih =>
    rw [noHit, Bool.and_eq_true, Bool.not_eq_true'] at h
    rw [replaceGo_skip pat rep c cs h.1, ih h.2]

theorem replaceGo_once (pat rep A B : List Char) (hne : pat.isEmpty = false)
    (hA : noHitIn pat A (pat ++ B) = true) (hB : noHit pat B = true) :
    replaceGo pat rep (A ++ (pat ++ B)) 0 = A ++ (rep ++ B) := by
  induction A with
  | nil =>
    simpa using (replaceGo_hit pat rep B hne).trans
      (congrArg (rep ++ ·) (replaceGo_of_noHit pat rep B hB))
  | cons a as ih =>
    rw [noHitIn, Bool.and_eq_true, Bool.not_eq_true'] at hA
    rw [List.cons_append, replaceGo_skip pat rep a (as ++ (pat ++ B)) hA.1, ih hA.2,
      List.cons_append]

theorem string_append_data (s t : String) : (s ++ t).data = s.data ++ t.data :=
  String.data_append s t

theorem jvalDumpList_map_jstr (l : List String) :
    jvalDumpList (l.map .jstr) = l.map pyJsonQuote := by
  induction l with
  | nil => rfl
  | cons s l ih => simp [jvalDumpList, jvalDump, ih]

theorem strListOf_map_jstr (l : List String) :
    strListOf (l.map JVal.jstr) = some l := by
  induction l with
  | nil => rfl
  | cons s l ih => simp [strListOf, asStr, ih]

/-- Validation undoes the camelCase dump (when the confidence is positive, as
the PositiveInt invariant demands). -/
theorem validateTranslation_dump (t : Translation)
    (h : 0 < t.detected_language.confidence) :
    validateTranslation (translationDump t) = some t := by
  simp [validateTranslation, translationDump, fieldLookup, jlookup, List.find?,
    validateDetectedLanguage, asStr, asPosInt, strListOf_map_jstr, asStrList, h]

/-- The handler consults only the first attempt's outcome: the source
configures a single model and calls chat exactly once. -/
theorem translate_only_first (args : Args) (dir : List (String × String)) (req : JVal)
    (api api' : Nat → ApiOutcome) (h : api 0 = api' 0) :
    translate args dir req api = translate args dir req api' := by
  unfold translate
  rw [h]

/-! ### Claim theorems -/

/-- C1: on the spec's own single-string scenario — request q = "<p>Hi</p>",
target "fr", one successful model reply with translatedText ["<p>Salut</p>"] —
the handler returns HTTP 200 with translatedText equal to a ONE-ELEMENT ARRAY,
not a bare string: translate wraps the bare string into a list before calling
chat, so chat's unwrap branch never runs (and that branch reads the snake_case
key "translated_text" from a camelCase-keyed dump, so it could only raise
KeyError).  This refutes the claim that a bare-string request yields a bare
string translatedText. -/
theorem c1_single_string_reply_is_array :
    (translate exampleArgs [("fr", "French")]
      (.jobj [("q", .jstr "<p>Hi</p>"), ("target", .jstr "fr")])
      (fun _ => .success
        (some { detected_language := { language := "en", confidence := 95 },
                translated_text := ["<p>Salut</p>"] }) none 10 5)).outcome
    = .jsonResponse 200
        (.jobj [("detectedLanguage",
                  .jobj [("language", .jstr "en"), ("confidence", .jint 95)]),
                ("translatedText", .jarr [.jstr "<p>Salut</p>"])]) := rfl

/-- C2 counterexample: the first attempt returns a malformed reply (an empty
JSON object, a DecodeError) and the next attempt would succeed, yet the overall
request does not succeed with the second result: the handler aborts at once
with the external 503 decoding error, refuting "continues with the next
candidate model". -/
theorem c2_counterexample :
    (translate exampleArgs []
      (.jobj [("q", .jarr [.jstr "A", .jstr "B"]), ("target", .jstr "de")])
      (fun n => if n = 0 then .success none (some (.jobj [])) 1 1
                else .success
                  (some { detected_language := { language := "en", confidence := 95 },
                          translated_text := ["a", "b"] }) none 1 1)).outcome
    = .httpError 503 "Upstream response decoding error" := rfl

/-- C2 amended: a single model is configured and there is no fallback loop; a
reply failing schema validation (DecodeError) aborts the whole request with the
HTTP 503 "Upstream response decoding error" external error, and the failure is
logged at warning severity (the same severity as the fatal failures, not
lower). -/
theorem c2_decode_error_aborts (args : Args) (dir : List (String × String)) (v : JVal)
    (api : Nat → ApiOutcome) (p c : Nat)
    (h : validateTranslation v = none)
    (h0 : api 0 = .success none (some v) p c) :
    (translate args dir (.jobj [("q", .jarr [.jstr "A", .jstr "B"]), ("target", .jstr "de")])
        api).outcome
      = .httpError 503 "Upstream response decoding error"
    ∧ (translate args dir (.jobj [("q", .jarr [.jstr "A", .jstr "B"]), ("target", .jstr "de")])
        api).logs
      = [⟨"debug", completionRepr none (some v) p c⟩,
         ⟨"warning", "Decoding error: validation error"⟩] := by
  rw [translate_only_first args dir _ api (fun _ => .success none (some v) p c) (by rw [h0])]
  constructor
  · simp +decide [translate, chat, jlookup, List.find?, h]
  · simp +decide [translate, chat, jlookup, List.find?, h]

/-- C2 witness for the amended theorem, at the concrete malformed reply. -/
theorem c2_decode_error_aborts_witness :
    (translate exampleArgs [] (.jobj [("q", .jarr [.jstr "A", .jstr "B"]), ("target", .jstr "de")])
        (fun _ => .success none (some (.jobj [])) 1 1)).outcome
      = .httpError 503 "Upstream response decoding error"
    ∧ (translate exampleArgs [] (.jobj [("q", .jarr [.jstr "A", .jstr "B"]), ("target", .jstr "de")])
        (fun _ => .success none (some (.jobj [])) 1 1)).logs
      = [⟨"debug", completionRepr none (some (.jobj [])) 1 1⟩,
         ⟨"warning", "Decoding error: validation error"⟩] :=
  c2_decode_error_aborts exampleArgs [] (.jobj []) _ 1 1 rfl rfl

/-- C3 counterexample: for the spec's scenario — batch ["A", "B"] with a reply
whose translatedText has only one element — validation succeeds (it is NOT
classified as DecodeError) and the handler returns HTTP 200 with the
mismatched one-element array. -/
theorem c3_counterexample :
    validateTranslation
      (.jobj [("detectedLanguage", .jobj [("language", .jstr "en"), ("confidence", .jint 95)]),
              ("translatedText", .jarr [.jstr "nur eins"])])
      = some { detected_language := { language := "en", confidence := 95 },
               translated_text := ["nur eins"] }
    ∧ (translate exampleArgs []
        (.jobj [("q", .jarr [.jstr "A", .jstr "B"]), ("target", .jstr "de")])
        (fun _ => .success none
          (some (.jobj [("detectedLanguage",
                          .jobj [("language", .jstr "en"), ("confidence", .jint 95)]),
                        ("translatedText", .jarr [.jstr "nur eins"])])) 3 4)).outcome
      = .jsonResponse 200
          (.jobj [("detectedLanguage",
                    .jobj [("language", .jstr "en"), ("confidence", .jint 95)]),
                  ("translatedText", .jarr [.jstr "nur eins"])]) :=
  ⟨rfl, rfl⟩

/-- C3 amended: response validation raises DecodeError unless
detectedLanguage.language is a string, confidence a positive integer and
translatedText an array of strings — but the length of translatedText is never
compared with the number of input texts: any such reply is accepted and
returned as-is, whatever the input batch length (first two conjuncts), while a
non-positive confidence is rejected (last conjunct). -/
theorem c3_validation_shape_only (args : Args) (dir : List (String × String))
    (qs : List String) (target lang : String) (conf : Nat) (hconf : 0 < conf)
    (ts : List String) (p c : Nat) :
    validateTranslation (translationDump ⟨⟨lang, conf⟩, ts⟩) = some ⟨⟨lang, conf⟩, ts⟩
    ∧ (translate args dir (.jobj [("q", .jarr (qs.map .jstr)), ("target", .jstr target)])
        (fun _ => .success none (some (translationDump ⟨⟨lang, conf⟩, ts⟩)) p c)).outcome
      = .jsonResponse 200 (translationDump ⟨⟨lang, conf⟩, ts⟩)
    ∧ validateTranslation (translationDump ⟨⟨lang, 0⟩, ts⟩) = none := by
  have h1 : validateTranslation (translationDump ⟨⟨lang, conf⟩, ts⟩) = some ⟨⟨lang, conf⟩, ts⟩ :=
    validateTranslation_dump ⟨⟨lang, conf⟩, ts⟩ hconf
  refine ⟨h1, ?_, ?_⟩
  · simp +decide [translate, chat, jlookup, List.find?, h1]
  · simp [validateTranslation, translationDump, fieldLookup, jlookup, List.find?,
      validateDetectedLanguage, asStr, asPosInt]

/-- C3 witness for the amended theorem: a two-element batch with a one-element
reply is accepted and returned. -/
theorem c3_validation_shape_only_witness :
    validateTranslation (translationDump ⟨⟨"en", 95⟩, ["nur eins"]⟩)
      = some ⟨⟨"en", 95⟩, ["nur eins"]⟩
    ∧ (translate exampleArgs []
        (.jobj [("q", .jarr (["A", "B"].map .jstr)), ("target", .jstr "de")])
        (fun _ => .success none (some (translationDump ⟨⟨"en", 95⟩, ["nur eins"]⟩)) 3 4)).outcome
      = .jsonResponse 200 (translationDump ⟨⟨"en", 95⟩, ["nur eins"]⟩)
    ∧ validateTranslation (translationDump ⟨⟨"en", 0⟩, ["nur eins"]⟩) = none :=
  c3_validation_shape_only exampleArgs [] ["A", "B"] "de" "en" 95 (by decide) ["nur eins"] 3 4

/-- C4: an upstream rate-limit failure aborts the whole request with the
HTTP 429 "Upstream rate limit" external error, and no further attempt is
consulted: whatever outcomes later attempts would have had, the result is
identical to the run where every attempt is rate-limited. -/
theorem c4_rate_limited_aborts (args : Args) (dir : List (String × String)) (m : String)
    (api' : Nat → ApiOutcome) :
    (translate args dir (.jobj [("q", .jstr "hello"), ("target", .jstr "fr")])
        (fun n => if n = 0 then .rateLimitError m else api' n)).outcome
      = .httpError 429 "Upstream rate limit"
    ∧ translate args dir (.jobj [("q", .jstr "hello"), ("target", .jstr "fr")])
        (fun n => if n = 0 then .rateLimitError m else api' n)
      = translate args dir (.jobj [("q", .jstr "hello"), ("target", .jstr "fr")])
        (fun _ => .rateLimitError m) :=
  ⟨rfl, translate_only_first _ _ _ _ _ rfl⟩

/-- C5: a non-rate-limit upstream API error aborts the whole request with
HTTP 503 "Upstream API error", and a network/transport failure aborts it with
HTTP 503 "Upstream I/O error"; in both cases the external text is the fixed
short message (never the raw upstream error text m), and no further attempt is
consulted. -/
theorem c5_upstream_transport_abort (args : Args) (dir : List (String × String)) (m : String)
    (api' : Nat → ApiOutcome) :
    (translate args dir (.jobj [("q", .jstr "hello"), ("target", .jstr "fr")])
        (fun n => if n = 0 then .apiError m else api' n)).outcome
      = .httpError 503 "Upstream API error"
    ∧ (translate args dir (.jobj [("q", .jstr "hello"), ("target", .jstr "fr")])
        (fun n => if n = 0 then .ioError m else api' n)).outcome
      = .httpError 503 "Upstream I/O error"
    ∧ translate args dir (.jobj [("q", .jstr "hello"), ("target", .jstr "fr")])
        (fun n => if n = 0 then .apiError m else api' n)
      = translate args dir (.jobj [("q", .jstr "hello"), ("target", .jstr "fr")])
        (fun _ => .apiError m)
    ∧ translate args dir (.jobj [("q", .jstr "hello"), ("target", .jstr "fr")])
        (fun n => if n = 0 then .ioError m else api' n)
      = translate args dir (.jobj [("q", .jstr "hello"), ("target", .jstr "fr")])
        (fun _ => .ioError m) :=
  ⟨rfl, rfl, translate_only_first _ _ _ _ _ rfl, translate_only_first _ _ _ _ _ rfl⟩

/-- C6: a request body lacking "q" or "target" fails at key extraction, before
the try block that maps failures to the external taxonomy: no upstream call is
made, the outcome is the framework's generic internal (500-class) failure, and
it is never one of the taxonomy's HTTP error responses. -/
theorem c6_missing_key_is_internal (args : Args) (dir : List (String × String))
    (fields : List (String × JVal)) (api : Nat → ApiOutcome)
    (h : jlookup fields "q" = none ∨ jlookup fields "target" = none) :
    (translate args dir (.jobj fields) api).call = none
    ∧ (∃ e, (translate args dir (.jobj fields) api).outcome = .internalError e)
    ∧ ∀ s t, (translate args dir (.jobj fields) api).outcome ≠ .httpError s t := by
  rcases hq : jlookup fields "q" with _ | qv
  · have hout : (translate args dir (.jobj fields) api).outcome = .internalError "KeyError: q" := by
      simp [translate, hq]
    exact ⟨by simp [translate, hq], ⟨_, hout⟩,
      fun s t hcon => by rw [hout] at hcon; exact Outcome.noConfusion hcon⟩
  · have ht : jlookup fields "target" = none := by
      rcases h with h | h
      · rw [hq] at h; exact Option.noConfusion h
      · exact h
    have hout : (translate args dir (.jobj fields) api).outcome
        = .internalError "KeyError: target" := by
      simp [translate, hq, ht]
    exact ⟨by simp [translate, hq, ht], ⟨_, hout⟩,
      fun s t hcon => by rw [hout] at hcon; exact Outcome.noConfusion hcon⟩

/-- C6 witness: a body with "q" but no "target". -/
theorem c6_missing_key_is_internal_witness :
    (translate exampleArgs [] (.jobj [("q", .jstr "hi")]) (fun _ => .apiError "x")).call = none
    ∧ (∃ e, (translate exampleArgs [] (.jobj [("q", .jstr "hi")])
        (fun _ => .apiError "x")).outcome = .internalError e)
    ∧ ∀ s t, (translate exampleArgs [] (.jobj [("q", .jstr "hi")])
        (fun _ => .apiError "x")).outcome ≠ .httpError s t :=
  c6_missing_key_is_internal exampleArgs [] [("q", .jstr "hi")] _ (Or.inr rfl)

/-- C7: the completion call issued by the translate handler carries the
output-shaping mode selected from the process-wide configuration: the
Translation schema by default, the generic JSON-object mode when
disable_structured_output is set (and disable_json_mode is not), and the
free-text mode when disable_json_mode is set. -/
theorem c7_resp_format_selection (args : Args) (dir : List (String × String))
    (api : Nat → ApiOutcome) :
    ((translate args dir (.jobj [("q", .jstr "hello"), ("target", .jstr "fr")]) api).call).map
        ChatCall.response_format
      = some (chooseRespFormat args)
    ∧ (args.disable_json_mode = true → chooseRespFormat args = RESPONSE_FORMAT_TEXT)
    ∧ (args.disable_json_mode = false → args.disable_structured_output = true →
        chooseRespFormat args = RESPONSE_FORMAT_JSON)
    ∧ (args.disable_json_mode = false → args.disable_structured_output = false →
        chooseRespFormat args = .schema) :=
  ⟨rfl,
   fun h => by simp [chooseRespFormat, h],
   fun h1 h2 => by simp [chooseRespFormat, h1, h2],
   fun h1 h2 => by simp [chooseRespFormat, h1, h2]⟩

/-- C7 witness: the three configurations, each yielding its mode. -/
theorem c7_resp_format_selection_witness :
    chooseRespFormat exampleArgsText = RESPONSE_FORMAT_TEXT
    ∧ chooseRespFormat exampleArgsJson = RESPONSE_FORMAT_JSON
    ∧ chooseRespFormat exampleArgs = .schema
    ∧ ((translate exampleArgs [] (.jobj [("q", .jstr "hello"), ("target", .jstr "fr")])
        (fun _ => .apiError "x")).call).map ChatCall.response_format
      = some (chooseRespFormat exampleArgs) :=
  ⟨(c7_resp_format_selection exampleArgsText [] (fun _ => .apiError "x")).2.1 rfl,
   (c7_resp_format_selection exampleArgsJson [] (fun _ => .apiError "x")).2.2.1 rfl rfl,
   (c7_resp_format_selection exampleArgs [] (fun _ => .apiError "x")).2.2.2 rfl rfl,
   (c7_resp_format_selection exampleArgs [] (fun _ => .apiError "x")).1⟩

theorem str_append_assoc (a b c : String) : a ++ b ++ c = a ++ (b ++ c) := by
  apply String.ext
  simp [String.data_append]

/-- Substituting the sole TAG_TARGET occurrence of the example-expanded
template, for an arbitrary replacement string. -/
theorem pyStrReplace_target (lang : String) :
    pyStrReplace (promptHead ++ (TAG_TARGET ++ (promptMid ++ translationDumpJsonIndent2 EXAMPLE)))
        TAG_TARGET lang
      = promptHead ++ (lang ++ (promptMid ++ translationDumpJsonIndent2 EXAMPLE)) := by
  apply String.ext
  show replaceGo TAG_TARGET.data lang.data
      (promptHead ++ (TAG_TARGET ++ (promptMid ++ translationDumpJsonIndent2 EXAMPLE))).data 0
    = _
  have hdata : (promptHead ++ (TAG_TARGET ++ (promptMid ++ translationDumpJsonIndent2 EXAMPLE))).data
      = promptHead.data ++ (TAG_TARGET.data
          ++ (promptMid ++ translationDumpJsonIndent2 EXAMPLE).data) := by
    simp [String.data_append]
  rw [hdata,
    replaceGo_once TAG_TARGET.data lang.data promptHead.data
      (promptMid ++ translationDumpJsonIndent2 EXAMPLE).data
      (by decide) (by decide) (by decide)]
  simp [String.data_append]

/-- C8: for every language directory and target code, the rendered prompt is
the fixed instruction text around the resolved display name of the target
language — falling back to the raw code when the directory lacks it — followed
by the literal worked example (the indent-2 dump of EXAMPLE: one
detected-language object plus a translated-text array).  The directory is
consumed purely (dirGet); nothing is mutated. -/
theorem c8_prompt_structure (dir : List (String × String)) (code : String) :
    prompt dir code
      = promptHead ++ ((dirGet dir code).getD code) ++ promptMid
          ++ translationDumpJsonIndent2 EXAMPLE := by
  have hA : pyStrReplace PROMPT TAG_EXAMPLE (translationDumpJsonIndent2 EXAMPLE)
      = promptHead ++ (TAG_TARGET ++ (promptMid ++ translationDumpJsonIndent2 EXAMPLE)) := by
    decide
  show pyStrReplace (pyStrReplace PROMPT TAG_EXAMPLE (translationDumpJsonIndent2 EXAMPLE))
      TAG_TARGET ((dirGet dir code).getD code) = _
  rw [hA, pyStrReplace_target ((dirGet dir code).getD code),
    str_append_assoc, str_append_assoc]

/-- C9: the completion call carries exactly two messages: the system message is
the rendered prompt for the target code, and the single user message is the
input texts serialized as a JSON array in their original order (a bare string
being serialized as a one-element array), with characters outside the
mandatory JSON escapes — in particular all non-ASCII — left verbatim. -/
theorem c9_messages (dir : List (String × String)) (target model : String)
    (fmt : RespFormat) (api : ApiOutcome) (texts : List String) :
    (chat dir (.jarr (texts.map .jstr)) target model fmt api).call.messages
      = [{ role := "system", content := prompt dir target },
         { role := "user", content := jvalDump (.jarr (texts.map .jstr)) }]
    ∧ (∀ s : String, (chat dir (.jstr s) target model fmt api).call.messages
      = [{ role := "system", content := prompt dir target },
         { role := "user", content := jvalDump (.jarr [.jstr s]) }])
    ∧ jvalDump (.jarr (texts.map .jstr))
      = "[" ++ String.intercalate ", " (texts.map pyJsonQuote) ++ "]"
    ∧ (∀ c : Char, 32 ≤ c.toNat → c ≠ '"' → c ≠ '\\' → escapeChar c = String.singleton c) := by
  refine ⟨rfl, fun s => rfl, ?_, ?_⟩
  · simp [jvalDump, jvalDumpList_map_jstr]
  · intro c h1 h2 h3
    have hn : c ≠ '\n' := fun hc => by subst hc; exact absurd h1 (by decide)
    have hr : c ≠ '\r' := fun hc => by subst hc; exact absurd h1 (by decide)
    have htab : c ≠ '\t' := fun hc => by subst hc; exact absurd h1 (by decide)
    have hb : c ≠ Char.ofNat 8 := fun hc => by subst hc; exact absurd h1 (by decide)
    have hf : c ≠ Char.ofNat 12 := fun hc => by subst hc; exact absurd h1 (by decide)
    have hctl : ¬ c.toNat < 32 := by omega
    simp [escapeChar, h2, h3, hn, hr, htab, hb, hf, hctl]

/-- C9 witness: a non-ASCII text is serialized verbatim in the user message. -/
theorem c9_messages_witness :
    (chat [] (.jarr (["héllo"].map .jstr)) "fr" "gpt-4o-mini" .schema (.apiError "x")).call.messages
      = [{ role := "system", content := prompt [] "fr" },
         { role := "user", content := jvalDump (.jarr (["héllo"].map .jstr)) }]
    ∧ escapeChar '日' = String.singleton '日' :=
  ⟨(c9_messages [] "fr" "gpt-4o-mini" .schema (.apiError "x") ["héllo"]).1,
   (c9_messages [] "fr" "gpt-4o-mini" .schema (.apiError "x") ["héllo"]).2.2.2 '日'
     (by decide) (by decide) (by decide)⟩

/-- C10: on every successful attempt for a batch request, the usage counters
appear (with the model name, detected language and requested target) only in
the log lines; the body returned to the caller is exactly the aliased dump of
the validated Translation, whose only keys are detectedLanguage and
translatedText, and the handler sends it with HTTP 200. -/
theorem c10_usage_only_logged (args : Args) (dir : List (String × String))
    (target : String) (parsed : Option Translation) (content : Option JVal)
    (pt ct : Nat) (texts : List String) (body : JVal)
    (h : (chat dir (.jarr (texts.map .jstr)) target args.model (chooseRespFormat args)
          (.success parsed content pt ct)).result = .ok body) :
    ∃ t : Translation, body = translationDump t
      ∧ jvalKeys body = ["detectedLanguage", "translatedText"]
      ∧ (chat dir (.jarr (texts.map .jstr)) target args.model (chooseRespFormat args)
          (.success parsed content pt ct)).logs
        = [⟨"debug", completionRepr parsed content pt ct⟩,
           ⟨"info", args.model ++ " " ++ t.detected_language.language ++ "/" ++ target ++ " "
             ++ toString pt ++ "+" ++ toString ct ++ " tokens"⟩]
      ∧ (translate args dir (.jobj [("q", .jarr (texts.map .jstr)), ("target", .jstr target)])
          (fun _ => .success parsed content pt ct)).outcome
        = .jsonResponse 200 body := by
  rcases hv : (match parsed with
               | some t => some t
               | none => content.bind validateTranslation) with _ | t
  · exfalso
    simp only [chat, hv] at h
    exact Except.noConfusion h
  · have hbody : translationDump t = body := by
      simp only [chat, hv] at h
      exact Except.ok.inj h
    refine ⟨t, hbody.symm, ?_, ?_, ?_⟩
    · rw [← hbody]; rfl
    · simp only [chat, hv]
    · rw [← hbody]
      simp +decide [translate, chat, jlookup, List.find?, hv]

/-- C10 witness: a concrete successful attempt. -/
theorem c10_usage_only_logged_witness :
    ∃ t : Translation,
      translationDump ⟨⟨"en", 95⟩, ["ok"]⟩ = translationDump t
      ∧ jvalKeys (translationDump ⟨⟨"en", 95⟩, ["ok"]⟩) = ["detectedLanguage", "translatedText"]
      ∧ (chat [] (.jarr (["x"].map .jstr)) "fr" exampleArgs.model (chooseRespFormat exampleArgs)
          (.success (some ⟨⟨"en", 95⟩, ["ok"]⟩) none 7 8)).logs
        = [⟨"debug", completionRepr (some ⟨⟨"en", 95⟩, ["ok"]⟩) none 7 8⟩,
           ⟨"info", exampleArgs.model ++ " " ++ t.detected_language.language ++ "/" ++ "fr" ++ " "
             ++ toString 7 ++ "+" ++ toString 8 ++ " tokens"⟩]
      ∧ (translate exampleArgs [] (.jobj [("q", .jarr (["x"].map .jstr)), ("target", .jstr "fr")])
          (fun _ => .success (some ⟨⟨"en", 95⟩, ["ok"]⟩) none 7 8)).outcome
        = .jsonResponse 200 (translationDump ⟨⟨"en", 95⟩, ["ok"]⟩) :=
  c10_usage_only_logged exampleArgs [] "fr" (some ⟨⟨"en", 95⟩, ["ok"]⟩) none 7 8 ["x"]
    (translationDump ⟨⟨"en", 95⟩, ["ok"]⟩) rfl

end Chatlibre
